import Mathlib

/-!
Verification of the tenant-scoped session and authorization layer of a
multi-tenant full-stack application.

The development shallowly embeds:
* the axios response interceptor and auth helpers of
  `frontend/src/lib/api.ts` together with the `AuthProvider` of the
  auth context (token install, logout, refresh-failure redirect);
* the PostgreSQL schema and row-level-security policies of
  `db/init.sql` (tables `tenants`, `users`, `datasets`, `dataset_rows`,
  `refresh_tokens`, the four `*_isolation` policies, and the fact that
  `tenants` has RLS disabled);
* the refresh-token rotation / revocation endpoints, modelled from the
  specification where the backend handler code is not part of the
  sources;
* the registration form submit handler of the register page.
-/

/-! Client-side model: `frontend/src/lib/api.ts` -/

/-- Membership test for a pattern inside a character list, mirroring
JavaScript `String.prototype.includes`. -/
def containsSub (pat : List Char) : List Char → Bool
  | [] => pat.isEmpty
  | c :: rest => pat.isPrefixOf (c :: rest) || containsSub pat rest

/-- JavaScript `s.includes(pat)`. -/
def containsSubstr (pat s : String) : Bool :=
  containsSub pat.data s.data

/-- An axios request config as used by the interceptor: `url`,
the `_retry` flag (absent = `false`), and the `Authorization` header. -/
structure RequestConfig where
  url : Option String
  retryFlag : Bool
  authHeader : Option String
deriving DecidableEq

/-- The data the response interceptor reads off a rejected response:
`error.response?.status` and `error.config`. -/
structure ErrorInfo where
  status : Option Nat
  config : RequestConfig
deriving DecidableEq

/-- Line 41 of `api.ts`: `originalRequest.url?.includes('/auth/')`
(an absent url is falsy). -/
def isAuthEndpointUrl (u : Option String) : Bool :=
  (u.map (containsSubstr "/auth/")).getD false

/-- Line 44 of `api.ts`: the guard under which the interceptor enters the
refresh-and-retry path:
`error.response?.status === 401 && !originalRequest._retry && !isAuthEndpoint`. -/
def shouldRefresh (e : ErrorInfo) : Bool :=
  e.status == some 401 && !e.config.retryFlag && !isAuthEndpointUrl e.config.url

/-- Client-side session state: the module-level in-memory `accessToken` of
`api.ts`, the `user` state of `AuthProvider`, and the current
`window.location.pathname` (`none` models `typeof window === 'undefined'`). -/
structure ClientState where
  accessToken : Option String
  user : Option String
  pathname : Option String
deriving DecidableEq

/-- Lines 55-56 of `api.ts`: `setAccessToken(response.data.access_token)`,
executed unconditionally when the refresh call resolves. -/
def installToken (tok : String) (s : ClientState) : ClientState :=
  { s with accessToken := some tok }

/-- Line 63 of `api.ts`: `setAccessToken(null)` after a failed refresh. -/
def clearToken (s : ClientState) : ClientState :=
  { s with accessToken := none }

/-- Lines 65-67 of `api.ts`: navigate to `/login` unless there is no window
or the pathname already includes `/login`. -/
def redirectToLogin (s : ClientState) : ClientState :=
  match s.pathname with
  | some p => if containsSubstr "/login" p then s else { s with pathname := some "/login" }
  | none => s

/-- `AuthProvider.logout` in the auth context: clears the in-memory access
token and the user object. -/
def logout (s : ClientState) : ClientState :=
  { s with accessToken := none, user := none }

/-- Outcome of the awaited `axios.post('/auth/refresh')` call. -/
inductive RefreshOutcome
  | ok (token : String)
  | failed
deriving DecidableEq

/-- What one run of the response-error interceptor did. -/
structure HandlerResult where
  state : ClientState
  refreshCalls : Nat
  retried : Option RequestConfig
  rejected : Bool
deriving DecidableEq

/-- The response-error interceptor of `api.ts` (lines 37-73), collapsed to a
function of the error, the refresh outcome and the client state.  On the
refresh path it marks the request (`_retry = true`, line 45), performs one
refresh exchange (line 49), and either installs the fresh token and replays
the original request with the new `Authorization` header (lines 56-60) or
clears the token, redirects to the login page and rejects (lines 63-68).
Outside the guard it simply rejects (line 72). -/
def handle401 (e : ErrorInfo) (refresh : RefreshOutcome) (s : ClientState) : HandlerResult :=
  if shouldRefresh e then
    let flagged := { e.config with retryFlag := true }
    match refresh with
    | .ok tok =>
        { state := installToken tok s
          refreshCalls := 1
          retried := some { flagged with authHeader := some ("Bearer " ++ tok) }
          rejected := false }
    | .failed =>
        { state := redirectToLogin (clearToken s)
          refreshCalls := 1
          retried := none
          rejected := true }
  else
    { state := s, refreshCalls := 0, retried := none, rejected := true }

/-- The atomic client-visible steps a single interceptor run performs on the
refresh path, in program order (lines 45, 49, 56, 60 of `api.ts`). -/
inductive ClientAction
  | markRetry
  | issueRefresh
  | installTok
  | replayRequest
  | reject
deriving DecidableEq, BEq

/-- The sequence of steps one interceptor invocation performs for a given
error.  The decision (line 44) reads only the error and its own request
config: no shared client state guards the `axios.post` on line 49. -/
def interceptorScript (e : ErrorInfo) : List ClientAction :=
  if shouldRefresh e then
    [.markRetry, .issueRefresh, .installTok, .replayRequest]
  else
    [.reject]

/-- Number of refresh exchanges a step sequence performs. -/
def countRefresh (l : List ClientAction) : Nat :=
  l.count .issueRefresh

/-- An interleaving of two sequences of events, as produced by two
concurrently running asynchronous handlers. -/
inductive Shuffle {α : Type} : List α → List α → List α → Prop
  | nil : Shuffle [] [] []
  | left {x xs ys zs} : Shuffle xs ys zs → Shuffle (x :: xs) ys (x :: zs)
  | right {y xs ys zs} : Shuffle xs ys zs → Shuffle xs (y :: ys) (y :: zs)

/-- Events observable by the client session while an interceptor run is in
flight: an interceptor step, or the user invoking `AuthProvider.logout`. -/
inductive SessionEvent
  | act (a : ClientAction) (tok : String)
  | userLogout
deriving DecidableEq

/-- Effect of one event on the client session state.  `installTok` is the
continuation after the awaited refresh resolves (line 56 of `api.ts`);
the other interceptor steps touch the request or the network only. -/
def execEvent (s : ClientState) : SessionEvent → ClientState
  | .act .installTok tok => installToken tok s
  | .act _ _ => s
  | .userLogout => logout s

/-- Run a trace of session events from an initial state. -/
def execTrace (s : ClientState) : List SessionEvent → ClientState
  | [] => s
  | e :: rest => execTrace (execEvent s e) rest

/-- A client state as it stands while logged in: token installed, user set,
browsing the dashboard. -/
def loggedInState : ClientState :=
  { accessToken := some "oldToken", user := some "alice", pathname := some "/dashboard" }

/-- A failing data request: `GET /datasets` rejected with status 401, never
retried before. -/
def datasetsReqErr : ErrorInfo :=
  { status := some 401
    config := { url := some "/datasets", retryFlag := false, authHeader := some "Bearer oldToken" } }

/-- A second concurrently failing data request to a different resource. -/
def datasetDetailReqErr : ErrorInfo :=
  { status := some 401
    config := { url := some "/datasets/abc", retryFlag := false, authHeader := some "Bearer oldToken" } }

/-- The trace in which the user logs out after the refresh exchange was
issued but before its response arrives: the interceptor then resumes and
executes line 56. -/
def lateRefreshTrace : List SessionEvent :=
  [.act .markRetry "newToken", .act .issueRefresh "newToken",
   .userLogout,
   .act .installTok "newToken", .act .replayRequest "newToken"]

/-! Storage model: `db/init.sql` -/

/-- Database identifiers (`UUID` columns), kept opaque. -/
abbrev Uuid := String

/-- A row of the `tenants` table. -/
structure TenantRow where
  id : Uuid
  name : String
  created_at : Nat
deriving DecidableEq

/-- A row of the `users` table. -/
structure UserRow where
  id : Uuid
  tenant_id : Uuid
  email : String
  password_hash : String
  created_at : Nat
deriving DecidableEq

/-- A row of the `datasets` table (`columns` and other JSONB payloads are
kept as opaque strings). -/
structure DatasetTableRow where
  id : Uuid
  tenant_id : Uuid
  user_id : Uuid
  name : String
  columns : String
  row_count : Nat
  created_at : Nat
deriving DecidableEq

/-- A row of the `dataset_rows` table (`tenant_id` is denormalized there for
RLS). -/
structure DatasetRowsRow where
  id : Uuid
  dataset_id : Uuid
  tenant_id : Uuid
  row_data : String
deriving DecidableEq

/-- A row of the `refresh_tokens` table. -/
structure RefreshTokenRow where
  id : Uuid
  user_id : Uuid
  token_hash : String
  expires_at : Nat
  created_at : Nat
deriving DecidableEq

/-- The per-connection settings the policies consult:
`current_setting('app.current_tenant_id', true)` and
`current_setting('app.current_user_id', true)`.  `none` models the setting
being absent, in which case `current_setting(..., true)` yields SQL NULL. -/
structure SessionSettings where
  currentTenantId : Option Uuid
  currentUserId : Option Uuid
deriving DecidableEq

/-- SQL comparison `col = current_setting(...)::uuid` under three-valued
logic: when the setting is NULL the comparison is NULL, which a policy
`USING` clause treats as not passing. -/
def settingEq (setting : Option Uuid) (v : Uuid) : Bool :=
  match setting with
  | some t => v == t
  | none => false

/-- Lines 73-76 of `init.sql`: RLS is enabled on `users`, `datasets`,
`dataset_rows` and `refresh_tokens`; no such statement exists for
`tenants`. -/
def usersRlsEnabled : Bool := true

def datasetsRlsEnabled : Bool := true

def datasetRowsRlsEnabled : Bool := true

def refreshTokensRlsEnabled : Bool := true

def tenantsRlsEnabled : Bool := false

/-- Policy `users_tenant_isolation`. -/
def usersPolicy (s : SessionSettings) (r : UserRow) : Bool :=
  settingEq s.currentTenantId r.tenant_id

/-- Policy `datasets_tenant_isolation`. -/
def datasetsPolicy (s : SessionSettings) (r : DatasetTableRow) : Bool :=
  settingEq s.currentTenantId r.tenant_id

/-- Policy `dataset_rows_tenant_isolation`. -/
def datasetRowsPolicy (s : SessionSettings) (r : DatasetRowsRow) : Bool :=
  settingEq s.currentTenantId r.tenant_id

/-- Policy `refresh_tokens_user_isolation`. -/
def refreshTokensPolicy (s : SessionSettings) (r : RefreshTokenRow) : Bool :=
  settingEq s.currentUserId r.user_id

/-- Whether a `users` row passes visibility: the policy when RLS is enabled,
everything otherwise. -/
def rowVisibleUsers (s : SessionSettings) (r : UserRow) : Bool :=
  if usersRlsEnabled then usersPolicy s r else true

def rowVisibleDatasets (s : SessionSettings) (r : DatasetTableRow) : Bool :=
  if datasetsRlsEnabled then datasetsPolicy s r else true

def rowVisibleDatasetRows (s : SessionSettings) (r : DatasetRowsRow) : Bool :=
  if datasetRowsRlsEnabled then datasetRowsPolicy s r else true

def rowVisibleRefreshTokens (s : SessionSettings) (r : RefreshTokenRow) : Bool :=
  if refreshTokensRlsEnabled then refreshTokensPolicy s r else true

/-- A `tenants` row has no policy; with RLS not enabled every row is
visible (were RLS enabled with no policy, the default would deny). -/
def rowVisibleTenants (_ : SessionSettings) (_ : TenantRow) : Bool :=
  if tenantsRlsEnabled then false else true

/-- Rows produced by a select; a failed operation produces none. -/
def selRows {α : Type} : Except String (List α) → List α
  | .ok l => l
  | .error _ => []

/-- Whether a storage operation completed without an error. -/
def opOk {ε α : Type} : Except ε α → Bool
  | .ok _ => true
  | .error _ => false

/-- `SELECT * FROM users`: RLS filters by the policy; the statement itself
never errors. -/
def selectUsers (s : SessionSettings) (db : List UserRow) : Except String (List UserRow) :=
  .ok (db.filter (rowVisibleUsers s))

def selectDatasets (s : SessionSettings) (db : List DatasetTableRow) :
    Except String (List DatasetTableRow) :=
  .ok (db.filter (rowVisibleDatasets s))

def selectDatasetRows (s : SessionSettings) (db : List DatasetRowsRow) :
    Except String (List DatasetRowsRow) :=
  .ok (db.filter (rowVisibleDatasetRows s))

def selectRefreshTokens (s : SessionSettings) (db : List RefreshTokenRow) :
    Except String (List RefreshTokenRow) :=
  .ok (db.filter (rowVisibleRefreshTokens s))

def selectTenants (s : SessionSettings) (db : List TenantRow) :
    Except String (List TenantRow) :=
  .ok (db.filter (rowVisibleTenants s))

/-- `INSERT INTO users`: a `FOR ALL` policy applies its `USING` expression
as the implicit `WITH CHECK`; a new row failing it raises an RLS
violation. -/
def insertUser (s : SessionSettings) (r : UserRow) (db : List UserRow) :
    Except String (List UserRow) :=
  if usersRlsEnabled && !(usersPolicy s r) then
    .error "new row violates row-level security policy"
  else
    .ok (db ++ [r])

def insertDataset (s : SessionSettings) (r : DatasetTableRow) (db : List DatasetTableRow) :
    Except String (List DatasetTableRow) :=
  if datasetsRlsEnabled && !(datasetsPolicy s r) then
    .error "new row violates row-level security policy"
  else
    .ok (db ++ [r])

def insertDatasetRow (s : SessionSettings) (r : DatasetRowsRow) (db : List DatasetRowsRow) :
    Except String (List DatasetRowsRow) :=
  if datasetRowsRlsEnabled && !(datasetRowsPolicy s r) then
    .error "new row violates row-level security policy"
  else
    .ok (db ++ [r])

def insertRefreshToken (s : SessionSettings) (r : RefreshTokenRow) (db : List RefreshTokenRow) :
    Except String (List RefreshTokenRow) :=
  if refreshTokensRlsEnabled && !(refreshTokensPolicy s r) then
    .error "new row violates row-level security policy"
  else
    .ok (db ++ [r])

/-- `DELETE FROM users WHERE pred`: the rows actually removed — RLS restricts
a delete to the rows passing the policy, so invisible rows are silently left
untouched. -/
def deletedUsers (s : SessionSettings) (pred : UserRow → Bool) (db : List UserRow) :
    List UserRow :=
  db.filter (fun r => rowVisibleUsers s r && pred r)

def deletedDatasets (s : SessionSettings) (pred : DatasetTableRow → Bool)
    (db : List DatasetTableRow) : List DatasetTableRow :=
  db.filter (fun r => rowVisibleDatasets s r && pred r)

def deletedDatasetRows (s : SessionSettings) (pred : DatasetRowsRow → Bool)
    (db : List DatasetRowsRow) : List DatasetRowsRow :=
  db.filter (fun r => rowVisibleDatasetRows s r && pred r)

def deletedRefreshTokens (s : SessionSettings) (pred : RefreshTokenRow → Bool)
    (db : List RefreshTokenRow) : List RefreshTokenRow :=
  db.filter (fun r => rowVisibleRefreshTokens s r && pred r)

/-- No session settings installed at all: no middleware ran
`SET app.current_tenant_id` for this connection. -/
def noCtx : SessionSettings :=
  { currentTenantId := none, currentUserId := none }

/-- Projection the tenants endpoint returns for each row. -/
def projTenant (t : TenantRow) : Uuid × String :=
  (t.id, t.name)

/-- Modelled from the spec: the backend handler for `GET /auth/tenants` is
not among the sources; §6 specifies it returns the list of
`id`/`name` pairs of the tenants table, which it reads through the
storage layer of `init.sql`. -/
def listTenantsEndpoint (s : SessionSettings) (db : List TenantRow) : List (Uuid × String) :=
  (selRows (selectTenants s db)).map projTenant

/-! Refresh rotator model (backend handlers modelled from the spec) -/

/-- Modelled from the spec: only the hash of a raw refresh token is stored
(`token_hash` column); collision resistance of the cryptographic hash is
modelled by an injective executable function. -/
def hashToken (raw : String) : String :=
  "sha256:" ++ raw

/-- Failure modes of `rotate` per §4.3. -/
inductive RotateError
  | invalidToken
  | expired
deriving DecidableEq

/-- Modelled from the spec: §4.3 `rotate` — the backend handler is not among
the sources.  Looks the token up by hash; an unknown (or already consumed)
hash fails with `InvalidToken`, a record past `expires_at` fails with
`Expired`.  On success, in one atomic transaction, the consumed record is
invalidated — the `refresh_tokens` schema in `init.sql` has no status
column, so ROTATED is realized by removing the record, per §3
"deletes or marks used" — and the ACTIVE successor for the same user is
inserted with a fresh id, a fresh random raw token and
`expires_at = now + ttl`.  Returns the new raw token. -/
def rotate (now ttl : Nat) (freshId freshRaw raw : String) (db : List RefreshTokenRow) :
    Except RotateError (List RefreshTokenRow × String) :=
  match db.find? (fun r => r.token_hash == hashToken raw) with
  | none => .error .invalidToken
  | some rec =>
    if rec.expires_at ≤ now then .error .expired
    else
      .ok (db.filter (fun r => !(r.token_hash == hashToken raw)) ++
             [{ id := freshId, user_id := rec.user_id, token_hash := hashToken freshRaw,
                expires_at := now + ttl, created_at := now }], freshRaw)

/-- Whether some stored record with the given hash is valid (present and
unexpired) at time `t`. -/
def isActiveHash (t : Nat) (db : List RefreshTokenRow) (h : String) : Bool :=
  db.any (fun r => r.token_hash == h && decide (t < r.expires_at))

/-- Modelled from the spec: the `/auth/logout` handler is not among the
sources.  §4.3 `revoke` marks the corresponding record invalid (REVOKED is
realized as removal over the status-less schema) and is idempotent when the
token is already invalid; §6 specifies the endpoint answers 204 even when
the cookie is absent. -/
def logoutEndpoint (cookie : Option String) (db : List RefreshTokenRow) :
    List RefreshTokenRow × Nat :=
  match cookie with
  | none => (db, 204)
  | some raw => (db.filter (fun r => !(r.token_hash == hashToken raw)), 204)

/-! Registration form model: the register page -/

/-- The component state of the register page relevant to `handleSubmit`. -/
structure RegisterFormState where
  email : String
  password : String
  confirmPassword : String
  tenantId : String
  tenants : List (Uuid × String)
  errorMsg : String
  isLoading : Bool
deriving DecidableEq

/-- The body sent to `POST /auth/register`. -/
structure RegisterPayload where
  email : String
  password : String
  tenant_id : String
deriving DecidableEq

/-- The `handleSubmit` handler of the register page, up to the point where
the network request is issued: clears the error, rejects a mismatched
confirmation, rejects a password shorter than 8 characters, and otherwise
sets the loading flag and issues the registration request. -/
def handleSubmit (s : RegisterFormState) : RegisterFormState × Option RegisterPayload :=
  let s0 := { s with errorMsg := "" }
  if s0.password ≠ s0.confirmPassword then
    ({ s0 with errorMsg := "Passwords do not match" }, none)
  else if s0.password.length < 8 then
    ({ s0 with errorMsg := "Password must be at least 8 characters" }, none)
  else
    ({ s0 with isLoading := true },
     some { email := s0.email, password := s0.password, tenant_id := s0.tenantId })

/-! Concrete fixtures used by witnesses -/

/-- A user of tenant Acme. -/
def acmeUser : UserRow :=
  { id := "u1", tenant_id := "t1", email := "a@acme.com", password_hash := "h1", created_at := 0 }

/-- A user of tenant Globex. -/
def globexUser : UserRow :=
  { id := "u2", tenant_id := "t2", email := "b@globex.com", password_hash := "h2", created_at := 0 }

/-- A session resolved for a user of tenant `t1`. -/
def acmeCtx : SessionSettings :=
  { currentTenantId := some "t1", currentUserId := some "u1" }

/-- A stored refresh-token record for the raw token `r1`. -/
def seedToken : RefreshTokenRow :=
  { id := "rt1", user_id := "u1", token_hash := hashToken "r1", expires_at := 100, created_at := 0 }

/-- The successor record `rotate 10 5 "rt2" "r2" "r1" [seedToken]` stores. -/
def rotatedToken : RefreshTokenRow :=
  { id := "rt2", user_id := "u1", token_hash := hashToken "r2", expires_at := 15, created_at := 10 }

/-- A register-page state whose confirmation does not match. -/
def mismatchedForm : RegisterFormState :=
  { email := "a@acme.com", password := "password123", confirmPassword := "password124",
    tenantId := "t1", tenants := [("t1", "Acme Corporation")], errorMsg := "", isLoading := false }

/-! Theorems about the client model -/

theorem shuffle_count {α : Type} [BEq α] (x : α) :
    ∀ {a b c : List α}, Shuffle a b c → c.count x = a.count x + b.count x := by
  intro a b c h
  induction h with
  | nil => simp
  | left _ ih => simp [List.count_cons, ih]; omega
  | right _ ih => simp [List.count_cons, ih]; omega

theorem shuffle_append {α : Type} : ∀ (a b : List α), Shuffle a b (a ++ b) := by
  intro a b
  induction a with
  | nil =>
    induction b with
    | nil => exact .nil
    | cons y ys ih => exact .right ih
  | cons x xs ih => exact .left ih

/-- C6: for every request that receives an authorization failure, the client
marks it and retries it at most once — a request already flagged for retry is
rejected without a refresh or a further retry, any request the interceptor
replays carries the retry flag, and requests whose url is an authentication
endpoint are never routed through the refresh-and-retry path. -/
theorem retry_at_most_once_and_auth_excluded
    (e : ErrorInfo) (r : RefreshOutcome) (s : ClientState) :
    (e.config.retryFlag = true →
       (handle401 e r s).refreshCalls = 0 ∧ (handle401 e r s).retried = none) ∧
    (∀ c, (handle401 e r s).retried = some c → c.retryFlag = true) ∧
    (isAuthEndpointUrl e.config.url = true →
       (handle401 e r s).refreshCalls = 0 ∧ (handle401 e r s).retried = none) := by
  refine ⟨?_, ?_, ?_⟩
  · intro hflag
    have hg : shouldRefresh e = false := by simp [shouldRefresh, hflag]
    simp [handle401, hg]
  · intro c hc
    by_cases hg : shouldRefresh e = true
    · cases r with
      | ok tok =>
        simp [handle401, hg] at hc
        simp [← hc]
      | failed => simp [handle401, hg] at hc
    · simp [handle401, hg] at hc
  · intro hauth
    have hg : shouldRefresh e = false := by simp [shouldRefresh, hauth]
    simp [handle401, hg]

theorem retry_at_most_once_and_auth_excluded_witness :
    (handle401 { status := some 401,
                 config := { url := some "/datasets", retryFlag := true, authHeader := none } }
        RefreshOutcome.failed loggedInState).refreshCalls = 0 ∧
    (handle401 { status := some 401,
                 config := { url := some "/auth/refresh", retryFlag := false, authHeader := none } }
        (RefreshOutcome.ok "t") loggedInState).retried = none :=
  ⟨((retry_at_most_once_and_auth_excluded _ _ _).1 rfl).1,
   ((retry_at_most_once_and_auth_excluded _ _ _).2.2 (by decide)).2⟩

/-- C7: for every refresh exchange that fails, the interceptor clears the
in-memory access token, replays nothing, performs no further refresh call,
and leaves the browser on a location whose pathname includes the login
page. -/
theorem refresh_failure_clears_and_routes_login
    (e : ErrorInfo) (s : ClientState) (p : String)
    (href : shouldRefresh e = true) (hwin : s.pathname = some p) :
    (handle401 e .failed s).state.accessToken = none ∧
    (handle401 e .failed s).refreshCalls = 1 ∧
    (handle401 e .failed s).retried = none ∧
    ∃ q, (handle401 e .failed s).state.pathname = some q ∧
      containsSubstr "/login" q = true := by
  by_cases hp : containsSubstr "/login" p = true
  · simp [handle401, href, redirectToLogin, clearToken, hwin, hp]
  · simp [handle401, href, redirectToLogin, clearToken, hwin, hp]
    decide

theorem refresh_failure_clears_and_routes_login_witness :
    (handle401 datasetsReqErr .failed loggedInState).state.accessToken = none ∧
    (handle401 datasetsReqErr .failed loggedInState).refreshCalls = 1 ∧
    (handle401 datasetsReqErr .failed loggedInState).retried = none ∧
    ∃ q, (handle401 datasetsReqErr .failed loggedInState).state.pathname = some q ∧
      containsSubstr "/login" q = true :=
  refresh_failure_clears_and_routes_login datasetsReqErr loggedInState "/dashboard"
    (by decide) rfl

/-- C1: the single-flight claim fails on the code: the decision on line 44 of
`api.ts` reads only the failing request's own config, so when two requests
fail with 401 concurrently, every interleaving of the two interceptor runs
issues two refresh exchanges, not one shared one. -/
theorem interceptor_two_concurrent_401s_issue_two_refreshes
    (sched : List ClientAction)
    (h : Shuffle (interceptorScript datasetsReqErr)
          (interceptorScript datasetDetailReqErr) sched) :
    countRefresh sched = 2 := by
  unfold countRefresh
  rw [shuffle_count ClientAction.issueRefresh h]
  decide

theorem interceptor_two_concurrent_401s_issue_two_refreshes_witness :
    countRefresh (interceptorScript datasetsReqErr ++ interceptorScript datasetDetailReqErr) = 2 :=
  interceptor_two_concurrent_401s_issue_two_refreshes _ (shuffle_append _ _)

/-- C4: the claim fails on the code: in the trace where the user logs out
while the refresh exchange is in flight (a legal interleaving of the
interceptor run with a logout event), logout clears the access token, yet
the late-arriving refresh resolution (line 56 of `api.ts`) unconditionally
reinstalls an access token, resurrecting part of the cleared session. -/
theorem late_refresh_reinstalls_token_after_logout :
    Shuffle ((interceptorScript datasetsReqErr).map (SessionEvent.act · "newToken"))
        [SessionEvent.userLogout] lateRefreshTrace ∧
    (execTrace loggedInState (lateRefreshTrace.take 3)).accessToken = none ∧
    (execTrace loggedInState lateRefreshTrace).accessToken = some "newToken" := by
  refine ⟨?_, rfl, rfl⟩
  show Shuffle
      [SessionEvent.act .markRetry "newToken", SessionEvent.act .issueRefresh "newToken",
       SessionEvent.act .installTok "newToken", SessionEvent.act .replayRequest "newToken"]
      [SessionEvent.userLogout] lateRefreshTrace
  exact .left (.left (.right (.left (.left .nil))))

/-! Theorems about the storage model -/

theorem settingEq_eq_some {o : Option Uuid} {v : Uuid} :
    settingEq o v = true ↔ o = some v := by
  cases o with
  | none => simp [settingEq]
  | some t =>
    simp only [settingEq, beq_iff_eq, Option.some.injEq]
    exact ⟨fun h => h.symm, fun h => h.symm⟩

theorem mem_filter_policy {α : Type} {p : α → Bool} {db : List α} {r : α}
    (h : r ∈ db.filter p) : p r = true :=
  (List.mem_filter.1 h).2

/-- C2: every tenant-scoped row is readable or writable only under session
settings whose tenant id (user id for refresh tokens) equals the row's; in
particular a context resolved for tenant `t1` can neither read nor insert a
row owned by a different tenant `t2`. -/
theorem rls_tenant_isolation (s : SessionSettings) :
    (∀ (db : List UserRow) (r : UserRow),
        (r ∈ selRows (selectUsers s db) → s.currentTenantId = some r.tenant_id) ∧
        (opOk (insertUser s r db) = true → s.currentTenantId = some r.tenant_id) ∧
        (∀ pred, r ∈ deletedUsers s pred db → s.currentTenantId = some r.tenant_id)) ∧
    (∀ (db : List DatasetTableRow) (r : DatasetTableRow),
        (r ∈ selRows (selectDatasets s db) → s.currentTenantId = some r.tenant_id) ∧
        (opOk (insertDataset s r db) = true → s.currentTenantId = some r.tenant_id) ∧
        (∀ pred, r ∈ deletedDatasets s pred db → s.currentTenantId = some r.tenant_id)) ∧
    (∀ (db : List DatasetRowsRow) (r : DatasetRowsRow),
        (r ∈ selRows (selectDatasetRows s db) → s.currentTenantId = some r.tenant_id) ∧
        (opOk (insertDatasetRow s r db) = true → s.currentTenantId = some r.tenant_id) ∧
        (∀ pred, r ∈ deletedDatasetRows s pred db → s.currentTenantId = some r.tenant_id)) ∧
    (∀ (db : List RefreshTokenRow) (r : RefreshTokenRow),
        (r ∈ selRows (selectRefreshTokens s db) → s.currentUserId = some r.user_id) ∧
        (opOk (insertRefreshToken s r db) = true → s.currentUserId = some r.user_id) ∧
        (∀ pred, r ∈ deletedRefreshTokens s pred db → s.currentUserId = some r.user_id)) ∧
    (∀ t1 t2 : Uuid, t1 ≠ t2 → s.currentTenantId = some t1 →
        (∀ (db : List UserRow) (r : UserRow), r.tenant_id = t2 →
            r ∉ selRows (selectUsers s db) ∧ opOk (insertUser s r db) = false) ∧
        (∀ (db : List DatasetTableRow) (r : DatasetTableRow), r.tenant_id = t2 →
            r ∉ selRows (selectDatasets s db) ∧ opOk (insertDataset s r db) = false) ∧
        (∀ (db : List DatasetRowsRow) (r : DatasetRowsRow), r.tenant_id = t2 →
            r ∉ selRows (selectDatasetRows s db) ∧ opOk (insertDatasetRow s r db) = false)) := by
  refine ⟨?_, ?_, ?_, ?_, ?_⟩
  · intro db r
    refine ⟨?_, ?_, ?_⟩
    · intro hr
      exact settingEq_eq_some.1 (mem_filter_policy (p := rowVisibleUsers s) hr)
    · intro hok
      cases hp : usersPolicy s r with
      | true => exact settingEq_eq_some.1 hp
      | false => simp [insertUser, opOk, usersRlsEnabled, hp] at hok
    · intro pred hr
      have h := mem_filter_policy (p := fun r => rowVisibleUsers s r && pred r) hr
      exact settingEq_eq_some.1 ((Bool.and_eq_true _ _) ▸ h).1
  · intro db r
    refine ⟨?_, ?_, ?_⟩
    · intro hr
      exact settingEq_eq_some.1 (mem_filter_policy (p := rowVisibleDatasets s) hr)
    · intro hok
      cases hp : datasetsPolicy s r with
      | true => exact settingEq_eq_some.1 hp
      | false => simp [insertDataset, opOk, datasetsRlsEnabled, hp] at hok
    · intro pred hr
      have h := mem_filter_policy (p := fun r => rowVisibleDatasets s r && pred r) hr
      exact settingEq_eq_some.1 ((Bool.and_eq_true _ _) ▸ h).1
  · intro db r
    refine ⟨?_, ?_, ?_⟩
    · intro hr
      exact settingEq_eq_some.1 (mem_filter_policy (p := rowVisibleDatasetRows s) hr)
    · intro hok
      cases hp : datasetRowsPolicy s r with
      | true => exact settingEq_eq_some.1 hp
      | false => simp [insertDatasetRow, opOk, datasetRowsRlsEnabled, hp] at hok
    · intro pred hr
      have h := mem_filter_policy (p := fun r => rowVisibleDatasetRows s r && pred r) hr
      exact settingEq_eq_some.1 ((Bool.and_eq_true _ _) ▸ h).1
  · intro db r
    refine ⟨?_, ?_, ?_⟩
    · intro hr
      exact settingEq_eq_some.1 (mem_filter_policy (p := rowVisibleRefreshTokens s) hr)
    · intro hok
      cases hp : refreshTokensPolicy s r with
      | true => exact settingEq_eq_some.1 hp
      | false => simp [insertRefreshToken, opOk, refreshTokensRlsEnabled, hp] at hok
    · intro pred hr
      have h := mem_filter_policy (p := fun r => rowVisibleRefreshTokens s r && pred r) hr
      exact settingEq_eq_some.1 ((Bool.and_eq_true _ _) ▸ h).1
  · intro t1 t2 hne hctx
    have hpol : ∀ tid : Uuid, tid = t2 → settingEq s.currentTenantId tid = false := by
      intro tid htid
      rw [hctx, htid]
      simp [settingEq]
      exact fun h => hne h.symm
    refine ⟨?_, ?_, ?_⟩
    · intro db r hrt
      constructor
      · intro hr
        have h := mem_filter_policy (p := rowVisibleUsers s) hr
        have h' : rowVisibleUsers s r = false := by
          simp [rowVisibleUsers, usersRlsEnabled, usersPolicy, hpol r.tenant_id hrt]
        rw [h'] at h
        exact Bool.false_ne_true h
      · simp [insertUser, opOk, usersRlsEnabled, usersPolicy, hpol r.tenant_id hrt]
    · intro db r hrt
      constructor
      · intro hr
        have h := mem_filter_policy (p := rowVisibleDatasets s) hr
        have h' : rowVisibleDatasets s r = false := by
          simp [rowVisibleDatasets, datasetsRlsEnabled, datasetsPolicy, hpol r.tenant_id hrt]
        rw [h'] at h
        exact Bool.false_ne_true h
      · simp [insertDataset, opOk, datasetsRlsEnabled, datasetsPolicy, hpol r.tenant_id hrt]
    · intro db r hrt
      constructor
      · intro hr
        have h := mem_filter_policy (p := rowVisibleDatasetRows s) hr
        have h' : rowVisibleDatasetRows s r = false := by
          simp [rowVisibleDatasetRows, datasetRowsRlsEnabled, datasetRowsPolicy, hpol r.tenant_id hrt]
        rw [h'] at h
        exact Bool.false_ne_true h
      · simp [insertDatasetRow, opOk, datasetRowsRlsEnabled, datasetRowsPolicy, hpol r.tenant_id hrt]

theorem rls_tenant_isolation_witness :
    acmeCtx.currentTenantId = some acmeUser.tenant_id ∧
    (globexUser ∉ selRows (selectUsers acmeCtx [acmeUser, globexUser]) ∧
     opOk (insertUser acmeCtx globexUser [acmeUser]) = false) :=
  ⟨((rls_tenant_isolation acmeCtx).1 [acmeUser, globexUser] acmeUser).1 (by decide),
   ⟨(((rls_tenant_isolation acmeCtx).2.2.2.2 "t1" "t2" (by decide) rfl).1
       [acmeUser, globexUser] globexUser rfl).1,
    (((rls_tenant_isolation acmeCtx).2.2.2.2 "t1" "t2" (by decide) rfl).1
       [acmeUser] globexUser rfl).2⟩⟩

/-- C5 counterexample: with no session settings installed, a select on a
tenant-scoped table does not fail — it silently succeeds, returning the
empty set, so the absence of a context is not surfaced as a fatal
configuration error. -/
theorem no_context_select_silently_succeeds :
    opOk (selectUsers noCtx [acmeUser]) = true ∧
    selRows (selectUsers noCtx [acmeUser]) = [] := by
  decide

/-- C5 amended: with no session settings installed, tenant-scoped reads
execute without error and return no rows (fail-closed rather than fatal),
and inserts into tenant-scoped tables are rejected by the policy check. -/
theorem no_context_fail_closed :
    ∀ (udb : List UserRow) (ddb : List DatasetTableRow) (rdb : List DatasetRowsRow)
      (kdb : List RefreshTokenRow) (u : UserRow) (d : DatasetTableRow)
      (x : DatasetRowsRow) (k : RefreshTokenRow),
      selectUsers noCtx udb = .ok [] ∧
      selectDatasets noCtx ddb = .ok [] ∧
      selectDatasetRows noCtx rdb = .ok [] ∧
      selectRefreshTokens noCtx kdb = .ok [] ∧
      opOk (insertUser noCtx u udb) = false ∧
      opOk (insertDataset noCtx d ddb) = false ∧
      opOk (insertDatasetRow noCtx x rdb) = false ∧
      opOk (insertRefreshToken noCtx k kdb) = false := by
  intro udb ddb rdb kdb u d x k
  refine ⟨?_, ?_, ?_, ?_, ?_, ?_, ?_, ?_⟩ <;>
    simp [selectUsers, selectDatasets, selectDatasetRows, selectRefreshTokens,
      insertUser, insertDataset, insertDatasetRow, insertRefreshToken, opOk,
      rowVisibleUsers, rowVisibleDatasets, rowVisibleDatasetRows, rowVisibleRefreshTokens,
      usersRlsEnabled, datasetsRlsEnabled, datasetRowsRlsEnabled, refreshTokensRlsEnabled,
      usersPolicy, datasetsPolicy, datasetRowsPolicy, refreshTokensPolicy,
      noCtx, settingEq]

/-- C9: the tenant directory is not tenant-isolated: for any two sessions,
with or without installed settings, the tenants endpoint returns the same
complete list of id and name pairs. -/
theorem tenants_list_not_isolated :
    ∀ (s1 s2 : SessionSettings) (db : List TenantRow),
      listTenantsEndpoint s1 db = listTenantsEndpoint s2 db ∧
      listTenantsEndpoint s1 db = db.map projTenant := by
  have h : ∀ (s : SessionSettings) (db : List TenantRow),
      listTenantsEndpoint s db = db.map projTenant := by
    intro s db
    have hp : rowVisibleTenants s = fun _ => true := by
      funext r
      simp [rowVisibleTenants, tenantsRlsEnabled]
    simp [listTenantsEndpoint, selectTenants, selRows, hp]
  intro s1 s2 db
  exact ⟨(h s1 db).trans (h s2 db).symm, h s1 db⟩

/-! Theorems about the rotator model -/

/-- C3: a rotate that succeeded consumed its raw token: a second rotate with
the same raw token fails with `InvalidToken` (so two calls yield exactly one
success and one failure), the consumed hash is gone from the post-state —
hence inactive at every time — and the successor is active, all established
by the single atomic `rotate` step. -/
theorem rotate_at_most_once
    (now ttl now2 ttl2 : Nat) (fid fraw fid2 fraw2 raw tok : String)
    (db db' : List RefreshTokenRow)
    (hfresh : hashToken fraw ≠ hashToken raw)
    (hsucc : rotate now ttl fid fraw raw db = .ok (db', tok)) :
    rotate now2 ttl2 fid2 fraw2 raw db' = .error .invalidToken ∧
    (∀ r ∈ db', r.token_hash ≠ hashToken raw) ∧
    (∀ t, isActiveHash t db' (hashToken raw) = false) ∧
    (0 < ttl → isActiveHash now db' (hashToken fraw) = true) := by
  unfold rotate at hsucc
  cases hfind : db.find? (fun r => r.token_hash == hashToken raw) with
  | none => rw [hfind] at hsucc; exact absurd hsucc (by simp)
  | some rec =>
    rw [hfind] at hsucc
    by_cases hexp : rec.expires_at ≤ now
    · simp [hexp] at hsucc
    · simp [hexp] at hsucc
      obtain ⟨hdb', _⟩ := hsucc
      have hgone : ∀ r ∈ db', r.token_hash ≠ hashToken raw := by
        intro r hr
        rw [← hdb'] at hr
        rcases List.mem_append.1 hr with hmem | hmem
        · have :=
            mem_filter_policy (p := fun r : RefreshTokenRow => !(r.token_hash == hashToken raw))
              hmem
          simpa using this
        · rcases List.mem_singleton.1 hmem with rfl
          simpa using hfresh
      refine ⟨?_, hgone, ?_, ?_⟩
      · have hnone : db'.find? (fun r => r.token_hash == hashToken raw) = none := by
          rw [List.find?_eq_none]
          intro r hr
          simpa using hgone r hr
        simp [rotate, hnone]
      · intro t
        unfold isActiveHash
        rw [List.any_eq_false]
        intro r hr
        simp [hgone r hr]
      · intro httl
        unfold isActiveHash
        rw [List.any_eq_true]
        refine ⟨{ id := fid, user_id := rec.user_id, token_hash := hashToken fraw,
                  expires_at := now + ttl, created_at := now }, ?_, ?_⟩
        · rw [← hdb']
          exact List.mem_append.2 (Or.inr (List.mem_singleton.2 rfl))
        · simp
          omega

theorem rotate_at_most_once_witness :
    rotate 11 5 "rt3" "r3" "r1" [rotatedToken] = .error RotateError.invalidToken ∧
    isActiveHash 10 [rotatedToken] (hashToken "r2") = true :=
  ⟨(rotate_at_most_once 10 5 11 5 "rt2" "r2" "rt3" "r3" "r1" "r2"
      [seedToken] [rotatedToken] (by decide) rfl).1,
   (rotate_at_most_once 10 5 11 5 "rt2" "r2" "rt3" "r3" "r1" "r2"
      [seedToken] [rotatedToken] (by decide) rfl).2.2.2 (by decide)⟩

/-- C8: the logout endpoint is idempotent: it answers 204 with or without a
cookie, answers 204 again when called a second time with the same, by then
invalid, cookie, and the second call leaves the store unchanged. -/
theorem logout_idempotent :
    ∀ (cookie : Option String) (db : List RefreshTokenRow),
      (logoutEndpoint cookie db).2 = 204 ∧
      (logoutEndpoint cookie (logoutEndpoint cookie db).1).2 = 204 ∧
      (logoutEndpoint cookie (logoutEndpoint cookie db).1).1 = (logoutEndpoint cookie db).1 := by
  intro cookie db
  cases cookie with
  | none => simp [logoutEndpoint]
  | some raw =>
    refine ⟨rfl, rfl, ?_⟩
    simp [logoutEndpoint, List.filter_filter]

/-! Theorems about the registration form -/

/-- C10: the submit handler issues the registration request only when the
password equals its confirmation and is at least 8 characters long; when a
check fails it sets the corresponding error message, issues no request, and
leaves every other piece of client state unchanged. -/
theorem register_submit_validation (s : RegisterFormState) :
    (∀ p, (handleSubmit s).2 = some p →
        s.password = s.confirmPassword ∧ 8 ≤ s.password.length ∧
        p.email = s.email ∧ p.password = s.password ∧ p.tenant_id = s.tenantId) ∧
    (s.password ≠ s.confirmPassword →
        (handleSubmit s).2 = none ∧
        (handleSubmit s).1.errorMsg = "Passwords do not match" ∧
        (handleSubmit s).1.email = s.email ∧ (handleSubmit s).1.password = s.password ∧
        (handleSubmit s).1.confirmPassword = s.confirmPassword ∧
        (handleSubmit s).1.tenantId = s.tenantId ∧ (handleSubmit s).1.tenants = s.tenants ∧
        (handleSubmit s).1.isLoading = s.isLoading) ∧
    (s.password = s.confirmPassword → s.password.length < 8 →
        (handleSubmit s).2 = none ∧
        (handleSubmit s).1.errorMsg = "Password must be at least 8 characters" ∧
        (handleSubmit s).1.email = s.email ∧ (handleSubmit s).1.password = s.password ∧
        (handleSubmit s).1.confirmPassword = s.confirmPassword ∧
        (handleSubmit s).1.tenantId = s.tenantId ∧ (handleSubmit s).1.tenants = s.tenants ∧
        (handleSubmit s).1.isLoading = s.isLoading) := by
  refine ⟨?_, ?_, ?_⟩
  · intro p hp
    by_cases h1 : s.password = s.confirmPassword
    · by_cases h2 : s.password.length < 8
      · have h2' : s.confirmPassword.length < 8 := h1 ▸ h2
        simp [handleSubmit, h1, h2'] at hp
      · have h2' : ¬s.confirmPassword.length < 8 := h1 ▸ h2
        simp [handleSubmit, h1, h2'] at hp
        subst hp
        exact ⟨h1, by omega, rfl, h1.symm, rfl⟩
    · simp [handleSubmit, h1] at hp
  · intro h1
    simp [handleSubmit, h1]
  · intro h1 h2
    have h2' : s.confirmPassword.length < 8 := h1 ▸ h2
    simp [handleSubmit, h1, h2']

theorem register_submit_validation_witness :
    (handleSubmit mismatchedForm).2 = none ∧
    (handleSubmit mismatchedForm).1.errorMsg = "Passwords do not match" :=
  ⟨((register_submit_validation mismatchedForm).2.1 (by decide)).1,
   ((register_submit_validation mismatchedForm).2.1 (by decide)).2.1⟩
